import Mathlib

/-!
Verification of the portfolio-page script of AI-is-out-there.github.io.

The repository holds three revisions of one `script.js`:
* revision A (`src/script.js`, first half): fetches the ORCID public-record
  XML (`extractWorksFromXml`, `displayPapersFromXmlData`);
* revision B (`src/script.js`, second half): fetches the ORCID v3.0 JSON
  activities endpoint and falls back to scraping the profile HTML for
  JSON-LD (`displayPapers`, `extractWorksFromHtmlJsonLd`,
  `displayPapersFromParsedData`);
* revision C (`src/unnamed/part_000`): an API-only fetcher.

All three revisions share the same GitHub repository loader (`fetchRepos`,
`createRepoCard`).

The definitions below are a shallow embedding of that JavaScript:
* JS strings become `String`; absent / `null` / `undefined` fields become
  `Option`; the JS truthiness test on a string field (only `""`,
  `null` and `undefined` are falsy) is `jsOr`;
* the network is modelled by an explicit outcome value fed to the loader
  function: a loader is a pure function from the outcome of its fetches to
  the final contents of its container (`innerHTML` assignments replace the
  whole container, so the final contents are a single value);
* `new Date(x)` comparisons in the repository sort are modelled by keeping
  `updated_at` as the parsed numeric timestamp (a `Nat`), which is what the
  comparator subtracts; the claims quantify over well-formed arrays, for
  which the parse is total;
* locale date formatting (`toLocaleDateString`) is environment-dependent
  and touched by no claim, so repository cards keep the raw timestamp.
-/

/-- JS `String.prototype.padStart(n, c)` for a single padding character:
prepend `c` until the length is at least `n`. -/
def jsPadStart (s : String) (n : Nat) (c : Char) : String :=
  String.mk (List.replicate (n - s.length) c ++ s.data)

/-- JS `Array.prototype.join(sep)`. -/
def joinWith (sep : String) : List String → String
  | [] => ""
  | [s] => s
  | s :: t :: rest => s ++ sep ++ joinWith sep (t :: rest)

/-- JS `x || fb` on an optional string field: `null`, `undefined` and `""`
are falsy and select the fallback. -/
def jsOr (v : Option String) (fb : String) : String :=
  match v with
  | none => fb
  | some s => if s = "" then fb else s

/-- JS `String.prototype.toLowerCase()` restricted to ASCII letters, which
is all the identifier types ("DOI", "URL", ...) contain. -/
def jsCharLower (c : Char) : Char :=
  if 'A' ≤ c ∧ c ≤ 'Z' then Char.ofNat (c.toNat + 32) else c

/-- JS `String.prototype.toLowerCase()` on a string. -/
def jsToLower (s : String) : String := String.mk (s.data.map jsCharLower)

/-- Test whether the char list `p` begins the char list `s`. -/
def listIsPre : List Char → List Char → Bool
  | [], _ => true
  | _ :: _, [] => false
  | a :: as, b :: bs => a == b && listIsPre as bs

/-- JS `String.prototype.startsWith(p)`. -/
def jsStartsWith (s p : String) : Bool := listIsPre p.data s.data

/-- The `url.startsWith('http') ? url : 'https://' + url` normalisation all
three revisions apply to a URL-typed external identifier value. -/
def withHttp (v : String) : String :=
  if jsStartsWith v "http" then v else "https://" ++ v

/-!
## Publication dates

Revision A (`extractWorksFromXml`, src/script.js lines 117-128) builds
`pubDateStr` from the optional `common:year` / `common:month` /
`common:day` element texts: the year is `padStart(4, '0')`-padded, month
and day are `padStart(2, '0')`-padded, and the present parts are joined
with `'-'` after `filter(Boolean)` (which drops `null` entries; padded
entries are never empty).

Revisions B and C (`displayPapers`, src/script.js lines 508-516, and
`fetchOrcidWorks`, src/unnamed/part_000 lines 55-59) do the same from the
JSON `publication-date` object, except that the year value is not padded:
`[year, month?.padStart(2,'0'), day?.padStart(2,'0')].filter(Boolean).join('-')`.
`filter(Boolean)` there also drops an empty-string year.
-/

/-- `[...].filter(Boolean).join('-')` on optional string parts: drop the
absent parts and the empty strings, join the rest with `'-'`. -/
def renderDateParts (parts : List (Option String)) : String :=
  joinWith "-" ((parts.filterMap id).filter (fun s => s != ""))

/-- Date string built by revisions B and C (JSON source): the year
as-is, month and day padded to at least two characters. -/
def apiDateStr (year month day : Option String) : String :=
  renderDateParts
    [year, month.map (fun s => jsPadStart s 2 '0'), day.map (fun s => jsPadStart s 2 '0')]

/-- Date string built by revision A (`extractWorksFromXml`): as
`apiDateStr` but the year is padded to at least four characters. -/
def xmlPubDateStr (year month day : Option String) : String :=
  renderDateParts
    [year.map (fun s => jsPadStart s 4 '0'),
     month.map (fun s => jsPadStart s 2 '0'),
     day.map (fun s => jsPadStart s 2 '0')]

theorem jsPadStart_length (s : String) (n : Nat) (c : Char) :
    (jsPadStart s n c).length = (n - s.length) + s.length := by
  simp [jsPadStart]

theorem jsPadStart_length_of_le (s : String) (n : Nat) (c : Char) (h : s.length ≤ n) :
    (jsPadStart s n c).length = n := by
  rw [jsPadStart_length, Nat.sub_add_cancel h]

theorem jsPadStart_ne_empty (s : String) (n : Nat) (c : Char) (h : 0 < n) :
    jsPadStart s n c ≠ "" := by
  intro he
  have hl : (jsPadStart s n c).length = 0 := by rw [he]; rfl
  rw [jsPadStart_length] at hl
  omega

/-!
## External identifiers and the rendered link

Each revision chooses one external link per publication:

* revision A (`displayPapersFromXmlData`, src/script.js lines 169-187):
  `find` the first identifier with `type === 'doi'`; if it exists and its
  value is truthy the link is `https://doi.org/<value>`; otherwise `find`
  the first identifier whose lowercased type is `'url'` and normalise its
  value with `withHttp`;
* revision B (`displayPapers`, src/script.js lines 518-535): a `for` loop
  that on `type === 'DOI' && value` sets the DOI link and breaks, and on
  `type === 'URL' && value` sets the normalised URL link and keeps
  scanning (so a later DOI still wins);
* revision C (`fetchOrcidWorks`, src/unnamed/part_000 lines 61-70): a
  `for` loop that skips entries with a falsy value, breaks with the DOI
  link when the lowercased type is `'doi'`, and otherwise records the
  normalised URL link when the lowercased type is `'url'`.
-/

/-- One entry of a work's external identifier list: a type tag ("doi",
"DOI", "url", ...) and a value. A missing or empty value is modelled as
`""`, which is exactly how the JS truthiness tests treat it. -/
structure ExternalId where
  idType : String
  value : String
deriving DecidableEq

/-- Revision A, fallback branch: first identifier whose lowercased type is
`'url'`, with a truthy value, normalised by `withHttp`. -/
def pickUrlXmlFallback (ids : List ExternalId) : String :=
  match ids.find? (fun i => jsToLower i.idType == "url") with
  | some u => if u.value = "" then "" else withHttp u.value
  | none => ""

/-- Revision A's link choice (`displayPapersFromXmlData`). -/
def pickUrlXml (ids : List ExternalId) : String :=
  match ids.find? (fun i => i.idType == "doi") with
  | some d => if d.value = "" then pickUrlXmlFallback ids else "https://doi.org/" ++ d.value
  | none => pickUrlXmlFallback ids

/-- Revision B's link loop (`displayPapers`), with `acc` the current value
of the `externalUrl` variable. -/
def pickUrlApiGo : List ExternalId → String → String
  | [], acc => acc
  | i :: rest, acc =>
    if i.idType = "DOI" ∧ i.value ≠ "" then "https://doi.org/" ++ i.value
    else if i.idType = "URL" ∧ i.value ≠ "" then pickUrlApiGo rest (withHttp i.value)
    else pickUrlApiGo rest acc

/-- Revision B's link choice: run the loop from the initial `''`. -/
def pickUrlApi (ids : List ExternalId) : String := pickUrlApiGo ids ""

/-- Revision C's link loop (`fetchOrcidWorks` in part_000), with `acc` the
current value of the `url` variable. -/
def pickUrlCleanGo : List ExternalId → String → String
  | [], acc => acc
  | i :: rest, acc =>
    if i.value = "" then pickUrlCleanGo rest acc
    else if jsToLower i.idType = "doi" then "https://doi.org/" ++ i.value
    else if jsToLower i.idType = "url" then pickUrlCleanGo rest (withHttp i.value)
    else pickUrlCleanGo rest acc

/-- Revision C's link choice: run the loop from the initial `''`. -/
def pickUrlClean (ids : List ExternalId) : String := pickUrlCleanGo ids ""

/-!
## Work records and rendered paper cards

`PaperCard` is the four-field display shape every revision reconciles
into: the fields that the paper-item template interpolates.
-/

/-- A rendered publication card: the strings interpolated into the
`paper-item` template (link href, title, authors line, journal, date). -/
structure PaperCard where
  url : String
  title : String
  authors : String
  journal : String
  date : String
deriving DecidableEq

/-- One `work-summary` object of the v3.0 activities JSON, holding just
the fields `displayPapers` (revision B) and the part_000 fetcher
(revision C) read: nested title value, journal title value, the three
publication-date part values, the external identifier list, and the
`credit-name` value of each contributor. -/
structure WorkSummary where
  title : Option String
  journalTitle : Option String
  year : Option String
  month : Option String
  day : Option String
  externalIds : List ExternalId
  contributors : List (Option String)
deriving DecidableEq

/-- One `group` entry of the activities JSON: its `work-summary` array
(missing array modelled as `[]`, which behaves identically under `?.[0]`). -/
structure WorkGroup where
  workSummary : List WorkSummary
deriving DecidableEq

/-- Revision B's per-summary card (`displayPapers`): fallback title
`'Untitled Work (API)'`, DOI-preferring link via `pickUrlApi`, date via
`apiDateStr`, authors joined with `', '` with fallback
`'Unknown Author'`. -/
def summaryCardApi (s : WorkSummary) : PaperCard :=
  { url := pickUrlApi s.externalIds
    title := jsOr s.title "Untitled Work (API)"
    authors := joinWith ", " (s.contributors.map (fun c => jsOr c "Unknown Author"))
    journal := jsOr s.journalTitle ""
    date := apiDateStr s.year s.month s.day }

/-- Revision C's per-summary card (part_000): fallback title `'Untitled'`,
link via `pickUrlClean`, authors fallback `'Unknown'`. -/
def summaryCardClean (s : WorkSummary) : PaperCard :=
  { url := pickUrlClean s.externalIds
    title := jsOr s.title "Untitled"
    authors := joinWith ", " (s.contributors.map (fun c => jsOr c "Unknown"))
    journal := jsOr s.journalTitle ""
    date := apiDateStr s.year s.month s.day }

/-- A work object as produced by `extractWorksFromXml` (revision A):
title, pre-joined authors string, pre-joined date string, journal title,
and the extracted external identifier list. -/
structure XmlWork where
  title : String
  authors : String
  date : String
  journal : String
  externalIds : List ExternalId
deriving DecidableEq

/-- The card `displayPapersFromXmlData` renders for one extracted work. -/
def xmlWorkCard (w : XmlWork) : PaperCard :=
  { url := pickUrlXml w.externalIds
    title := w.title
    authors := w.authors
    journal := w.journal
    date := w.date }

/-!
## Revision A: the XML loader (`fetchOrcidWorks`, src/script.js 25-84)

The loader awaits one fetch of the public-record XML. Its observable
outcome is modelled by `XmlFetchOutcome`:
* `networkError msg`: `fetch` (or reading the body) rejected with an error
  whose message is `msg`;
* `response status statusText body` with `body` one of
  - `parseFailure`: the `DOMParser` document contains a `parsererror`
    element,
  - `works ws`: the document parses and `extractWorksFromXml` yields `ws`.

Inside the `try` block, a non-ok status throws the matching message
(404 / 401-403 / generic), a parse failure throws, and an empty works list
throws; the `catch` renders every thrown or rejected message inline as
`<p class="error">Error loading publications: <msg></p>`. A non-empty
works list is rendered by `displayPapersFromXmlData`, one card per work.
-/

/-- Body of an HTTP-ok XML response, as far as the loader can see. -/
inductive XmlBody where
  | parseFailure
  | works (ws : List XmlWork)
deriving DecidableEq

/-- Outcome of revision A's single fetch. -/
inductive XmlFetchOutcome where
  | networkError (msg : String)
  | response (status : Nat) (statusText : String) (body : XmlBody)
deriving DecidableEq

/-- `Response.ok`: status in the 2xx range. -/
def statusOk (status : Nat) : Bool := decide (200 ≤ status ∧ status ≤ 299)

/-- Final contents of `papers-container`: either one inline message or a
list of paper cards. -/
inductive PapersRender where
  | message (html : String)
  | papers (cards : List PaperCard)
deriving DecidableEq

/-- The inline error markup of revision A's `catch` handler. -/
def xmlErrorHtml (msg : String) : String :=
  "<p class=\"error\">Error loading publications: " ++ msg ++ "</p>"

/-- The message thrown for a non-ok status in revision A. -/
def xmlStatusMsg (status : Nat) (statusText : String) : String :=
  if status = 404 then
    "ORCID public record XML not found for ID: 0000-0003-0359-0897. Profile might be private or the ID is incorrect."
  else if status = 401 ∨ status = 403 then
    "Access to ORCID public record XML denied (Profile is private or restricted)."
  else
    "ORCID XML API Error: " ++ toString status ++ " " ++ statusText

/-- The message thrown when the XML parses but no works are extracted. -/
def xmlNoWorksMsg : String :=
  "Could not extract publication data from the ORCID XML record (no works found or parsing failed)."

/-- The message thrown on a `parsererror` document. -/
def xmlParseFailureMsg : String := "Failed to parse the ORCID XML response."

/-- `displayPapersFromXmlData`: empty input renders its own message,
otherwise one card per work. (The loader only calls it with a non-empty
list.) -/
def displayPapersFromXmlData (ws : List XmlWork) : PapersRender :=
  if ws = [] then .message "<p>No publications found in ORCID XML record.</p>"
  else .papers (ws.map xmlWorkCard)

/-- Revision A's loader as a function from its fetch outcome to the final
container contents. -/
def fetchOrcidWorksXml : XmlFetchOutcome → PapersRender
  | .networkError msg => .message (xmlErrorHtml msg)
  | .response status statusText body =>
    if statusOk status = false then .message (xmlErrorHtml (xmlStatusMsg status statusText))
    else
      match body with
      | .parseFailure => .message (xmlErrorHtml xmlParseFailureMsg)
      | .works ws =>
        if ws = [] then .message (xmlErrorHtml xmlNoWorksMsg)
        else displayPapersFromXmlData ws

/-!
## Revision C: the API-only loader (part_000 `fetchOrcidWorks`)

One fetch of the v3.0 activities endpoint. `res.ok` is checked first; a
parsed body yields `data?.['activities:works']?.group ?? []` (a missing
path is the empty list). Zero groups render
`<p>No publications found.</p>` and return; otherwise each group's first
`work-summary` (if any) becomes a card, and if every group lacked a
summary the loader renders `<p>No displayable publications found.</p>`.
Every thrown error (non-ok status, JSON parse rejection, network
rejection) reaches the single `catch`, which renders
`<p class="error">Error loading publications: <msg></p>`.
-/

/-- Body of an HTTP-ok activities response for revision C. -/
inductive CleanBody where
  | malformed (msg : String)
  | works (groups : List WorkGroup)
deriving DecidableEq

/-- Outcome of revision C's single fetch. -/
inductive CleanFetchOutcome where
  | networkError (msg : String)
  | response (status : Nat) (statusText : String) (body : CleanBody)
deriving DecidableEq

/-- The inline error markup of revision C's `catch` handler. -/
def cleanErrorHtml (msg : String) : String :=
  "<p class=\"error\">Error loading publications: " ++ msg ++ "</p>"

/-- The message thrown for a non-ok status in revision C. -/
def cleanStatusMsg (status : Nat) (statusText : String) : String :=
  "ORCID API " ++ toString status ++ " – " ++ statusText

/-- The empty-result markup of revision C. -/
def cleanNoPubsHtml : String := "<p>No publications found.</p>"

/-- The all-groups-empty markup of revision C. -/
def cleanNoDisplayableHtml : String := "<p>No displayable publications found.</p>"

/-- Revision C's loader as a function from its fetch outcome to the final
container contents. -/
def fetchOrcidWorksClean : CleanFetchOutcome → PapersRender
  | .networkError msg => .message (cleanErrorHtml msg)
  | .response status statusText body =>
    if statusOk status = false then
      .message (cleanErrorHtml (cleanStatusMsg status statusText))
    else
      match body with
      | .malformed msg => .message (cleanErrorHtml msg)
      | .works groups =>
        if groups = [] then .message cleanNoPubsHtml
        else
          match groups.filterMap (fun g => g.workSummary.head?.map summaryCardClean) with
          | [] => .message cleanNoDisplayableHtml
          | c :: cs => .papers (c :: cs)

/-!
## Revision B: API attempt with HTML JSON-LD fallback
(src/script.js 303-377)

The loader first awaits a fetch of the activities endpoint. If that
attempt yields at least one work group it renders via `displayPapers` and
returns; in every other case (fetch rejection, JSON rejection, non-ok
status, zero groups) it proceeds to await a second fetch of the profile
HTML, whose JSON-LD blocks `extractWorksFromHtmlJsonLd` scans for
work-typed entries (returning `null` when none are found). A non-empty
JSON-LD result is rendered by `displayPapersFromParsedData`; everything
else becomes the inline error message of the second `catch`.
-/

/-- A work-typed JSON-LD author entry: a plain string or an object whose
`name` / `@name` fields may be absent. -/
inductive LdAuthor where
  | str (s : String)
  | obj (name : Option String) (atName : Option String)
deriving DecidableEq

/-- The `author` field of a JSON-LD work: absent, a single entry, or an
array of entries. -/
inductive LdAuthorField where
  | absent
  | single (a : LdAuthor)
  | array (as : List LdAuthor)
deriving DecidableEq

/-- A `string | { name?: string }` field (`isPartOf` / `publisher`). -/
inductive LdContainer where
  | str (s : String)
  | obj (name : Option String)
deriving DecidableEq

/-- A work-typed JSON-LD object, holding the fields
`displayPapersFromParsedData` reads. -/
structure LdWork where
  name : Option String
  headline : Option String
  ldTitle : Option String
  author : LdAuthorField
  datePublished : Option String
  dateCreated : Option String
  publicationDate : Option String
  isPartOf : Option LdContainer
  publisher : Option LdContainer
  url : Option String
  atId : Option String
deriving DecidableEq

/-- `typeof a === 'string' ? a : (a.name || a['@name'] || 'Unknown Author')`. -/
def ldAuthorName : LdAuthor → String
  | .str s => s
  | .obj n an => jsOr n (jsOr an "Unknown Author")

/-- The authors line of a JSON-LD card. -/
def ldAuthorsLine : LdAuthorField → String
  | .absent => ""
  | .single a => ldAuthorName a
  | .array as => joinWith ", " (as.map ldAuthorName)

/-- JS truthiness of an `isPartOf` / `publisher` field: absent and the
empty string are falsy, every object is truthy. -/
def ldContainerTruthy : Option LdContainer → Bool
  | none => false
  | some (.str s) => s != ""
  | some (.obj _) => true

/-- The name drawn from a truthy container field: the string itself, or
the object's `name` when that is truthy, else the journal stays `''`. -/
def ldContainerName : Option LdContainer → String
  | some (.str s) => s
  | some (.obj n) => jsOr n ""
  | none => ""

/-- The journal line of a JSON-LD card: `isPartOf` if truthy, else
`publisher` if truthy, else `''`. -/
def ldJournal (w : LdWork) : String :=
  if ldContainerTruthy w.isPartOf then ldContainerName w.isPartOf
  else if ldContainerTruthy w.publisher then ldContainerName w.publisher
  else ""

/-- The card `displayPapersFromParsedData` renders for one JSON-LD work.
Note the link is `work.url || work['@id'] || ''` with no
`startsWith('http')` normalisation. -/
def ldWorkCard (w : LdWork) : PaperCard :=
  { url := jsOr w.url (jsOr w.atId "")
    title := jsOr w.name (jsOr w.headline (jsOr w.ldTitle "Untitled Work (JSON-LD)"))
    authors := ldAuthorsLine w.author
    journal := ldJournal w
    date := jsOr w.datePublished (jsOr w.dateCreated (jsOr w.publicationDate "")) }

/-- `displayPapersFromParsedData`: empty input renders its own message,
otherwise one card per JSON-LD work. -/
def displayPapersFromParsedData (ws : List LdWork) : PapersRender :=
  if ws = [] then
    .message "<p>No publications found in ORCID profile (parsed from HTML JSON-LD).</p>"
  else .papers (ws.map ldWorkCard)

/-- `displayPapers` (revision B): empty group list renders the API
no-publications message; otherwise the first summary of each group (when
present) becomes a card, and if every group is skipped the no-summaries
message is rendered. -/
def displayPapers (groups : List WorkGroup) : PapersRender :=
  if groups = [] then .message "<p>No publications found in ORCID profile (API).</p>"
  else
    match groups.filterMap (fun g => g.workSummary.head?.map summaryCardApi) with
    | [] =>
      .message "<p>No publication summaries found in ORCID profile data after processing (API).</p>"
    | c :: cs => .papers (c :: cs)

/-- Outcome of revision B's first (API) fetch attempt. -/
inductive ApiAttempt where
  | fetchError (msg : String)
  | notOk (status : Nat) (statusText : String)
  | works (groups : List WorkGroup)
deriving DecidableEq

/-- Outcome of revision B's second (profile HTML) fetch attempt.
`page found` carries the result of `extractWorksFromHtmlJsonLd` (`none`
models its `null` return). -/
inductive HtmlAttempt where
  | fetchError (msg : String)
  | notOk (status : Nat) (statusText : String)
  | page (found : Option (List LdWork))
deriving DecidableEq

/-- The environment of one revision B execution: what each of the at most
two fetches would observe. -/
structure OrcidEnv where
  api : ApiAttempt
  html : HtmlAttempt
deriving DecidableEq

/-- The two requests revision B can issue, in its fixed priority order. -/
inductive OrcidRequest where
  | apiActivities
  | profileHtml
deriving DecidableEq

/-- The inline error markup of revision B's second `catch` handler. -/
def htmlErrorHtml (msg : String) : String :=
  "<p class=\"error\">Error loading publications: " ++ msg ++
    "<br>Could not retrieve data from ORCID API or profile page.</p>"

/-- The message thrown for a non-ok profile HTML status in revision B. -/
def htmlStatusMsg (status : Nat) (statusText : String) : String :=
  "HTTP " ++ toString status ++ " " ++ statusText ++ " when fetching ORCID profile HTML."

/-- The message thrown when no JSON-LD works are found in the page. -/
def htmlNoJsonLdMsg : String :=
  "Could not extract publication data from the ORCID page HTML (no JSON-LD found or parsing failed). The profile might rely on JavaScript for content rendering, which this script cannot execute."

/-- Whether the API attempt yielded at least one parsed work group, which
is exactly the condition under which revision B renders and returns after
its first request. -/
def apiYields : ApiAttempt → Bool
  | .works (_ :: _) => true
  | _ => false

/-- Rendering of revision B's fallback (HTML) attempt. -/
def htmlAttemptRender : HtmlAttempt → PapersRender
  | .fetchError msg => .message (htmlErrorHtml msg)
  | .notOk status statusText => .message (htmlErrorHtml (htmlStatusMsg status statusText))
  | .page found =>
    match found with
    | some (w :: ws) => displayPapersFromParsedData (w :: ws)
    | _ => .message (htmlErrorHtml htmlNoJsonLdMsg)

/-- Revision B's loader: the list of requests it issues, in order, and the
final container contents. The fallback request appears in the trace only
in the branch where the API attempt did not yield a non-empty group list,
mirroring the sequential `await`s of the source. -/
def fetchOrcidWorksApiHtml (env : OrcidEnv) : List OrcidRequest × PapersRender :=
  match env.api with
  | .works (g :: gs) => ([.apiActivities], displayPapers (g :: gs))
  | _ => ([.apiActivities, .profileHtml], htmlAttemptRender env.html)

/-!
## The repository loader (`fetchRepos` / `createRepoCard`, identical in
all three revisions)

`fetchRepos` chains `fetch(...).then(r => r.json()).then(repos => ...)`
with a single `catch`. The crucial point is that `response.ok` is never
consulted: `fetch` only rejects on a network error, and otherwise the
body alone decides what happens. A body that is not valid JSON makes
`r.json()` reject; a JSON body that is not an array makes `repos.sort`
throw a `TypeError`; both rejections reach the `catch`, which replaces
the container with the single static message. A JSON array — whatever the
HTTP status was — is sorted descending by `updated_at` and rendered one
card per entry (the success callback first clears the container, and on
any later throw the `catch` overwrites the whole container, so no partial
card list can remain).

`new Date(x) - new Date(y)` is modelled by comparing the parsed numeric
timestamps; on a well-formed array the sort therefore orders entries by
descending `updated_at`. JS `Array.prototype.sort` is a stable sort by
the comparator, which `List.mergeSort` also is.
-/

/-- One entry of the repository JSON array, with `updated_at` as the
parsed numeric timestamp. -/
structure Repo where
  name : String
  description : Option String
  stargazers_count : Nat
  forks_count : Nat
  updated_at : Nat
  language : Option String
  html_url : String
deriving DecidableEq

/-- The strings and numbers `createRepoCard` interpolates into one card
(the locale-formatted update date is kept as the raw timestamp, see the
header note). -/
structure RepoCard where
  name : String
  description : String
  stars : Nat
  forks : Nat
  updated : Nat
  language : String
  url : String
deriving DecidableEq

/-- `createRepoCard`: `description || 'No description provided'` and
`language || 'Not specified'` are the only conditional fields. -/
def createRepoCard (repo : Repo) : RepoCard :=
  { name := repo.name
    description := jsOr repo.description "No description provided"
    stars := repo.stargazers_count
    forks := repo.forks_count
    updated := repo.updated_at
    language := jsOr repo.language "Not specified"
    url := repo.html_url }

/-- `repos.sort((a, b) => new Date(b.updated_at) - new Date(a.updated_at))`:
a stable sort that puts `a` before `b` when `b`'s timestamp does not
exceed `a`'s. -/
def sortRepos (repos : List Repo) : List Repo :=
  repos.mergeSort (fun a b => decide (b.updated_at ≤ a.updated_at))

/-- What the body of the repository response parsed to. -/
inductive ReposBody where
  | malformed
  | notArray
  | array (repos : List Repo)
deriving DecidableEq

/-- Outcome of the repository fetch. -/
inductive ReposFetchOutcome where
  | networkError
  | response (status : Nat) (body : ReposBody)
deriving DecidableEq

/-- Final contents of `repo-container`. -/
inductive ReposRender where
  | message (html : String)
  | cards (cards : List RepoCard)
deriving DecidableEq

/-- The single static error message of the repository loader. -/
def reposErrorHtml : String := "<p>Error loading repositories. Please try again later.</p>"

/-- The repository loader as a function from its fetch outcome to the
final container contents. The HTTP status is carried in the outcome but
never read, exactly as in the source. -/
def fetchRepos : ReposFetchOutcome → ReposRender
  | .networkError => .message reposErrorHtml
  | .response _ .malformed => .message reposErrorHtml
  | .response _ .notArray => .message reposErrorHtml
  | .response _ (.array repos) => .cards ((sortRepos repos).map createRepoCard)

/-!
## Claim theorems
-/

theorem joinWith_single (sep s : String) : joinWith sep [s] = s := rfl

theorem joinWith_pair (sep s t : String) : joinWith sep [s, t] = s ++ sep ++ t := rfl

theorem joinWith_triple (sep s t u : String) :
    joinWith sep [s, t, u] = s ++ sep ++ (t ++ sep ++ u) := rfl

/-- C1, counterexample. The claim asserts that the rendered month
component is always exactly two digits, but `padStart(2, '0')` only pads
upwards: a record whose month value string is `"123"` renders as
`2020-123`, with a three-character month component. -/
theorem c1_counterexample :
    apiDateStr (some "2020") (some "123") none = "2020-123" ∧
      (jsPadStart "123" 2 '0').length ≠ 2 := by
  constructor
  · rfl
  · decide

/-- C1, amended: a publication date renders as the year alone (year only),
`year-MM` (year and month) or `year-MM-DD` (all three), where the month
and day components are the source values left-padded with zeros to at
least two characters — hence exactly two digits whenever the source value
has at most two characters, which holds for all genuine month and day
values. Revision A additionally pads the year to at least four
characters. -/
theorem c1_date_shape (y m d : String) (hy : y ≠ "") (hm : m.length ≤ 2) (hd : d.length ≤ 2) :
    apiDateStr (some y) none none = y ∧
    apiDateStr (some y) (some m) none = y ++ "-" ++ jsPadStart m 2 '0' ∧
    apiDateStr (some y) (some m) (some d) =
      y ++ "-" ++ (jsPadStart m 2 '0' ++ "-" ++ jsPadStart d 2 '0') ∧
    (jsPadStart m 2 '0').length = 2 ∧
    (jsPadStart d 2 '0').length = 2 ∧
    xmlPubDateStr (some y) none none = jsPadStart y 4 '0' ∧
    xmlPubDateStr (some y) (some m) none = jsPadStart y 4 '0' ++ "-" ++ jsPadStart m 2 '0' ∧
    xmlPubDateStr (some y) (some m) (some d) =
      jsPadStart y 4 '0' ++ "-" ++ (jsPadStart m 2 '0' ++ "-" ++ jsPadStart d 2 '0') := by
  have hm2 : jsPadStart m 2 '0' ≠ "" := jsPadStart_ne_empty m 2 '0' (by omega)
  have hd2 : jsPadStart d 2 '0' ≠ "" := jsPadStart_ne_empty d 2 '0' (by omega)
  have hy4 : jsPadStart y 4 '0' ≠ "" := jsPadStart_ne_empty y 4 '0' (by omega)
  refine ⟨?_, ?_, ?_, ?_, ?_, ?_, ?_, ?_⟩
  · simp [apiDateStr, renderDateParts, joinWith, hy]
  · simp [apiDateStr, renderDateParts, joinWith, hy, hm2]
  · simp [apiDateStr, renderDateParts, joinWith, hy, hm2, hd2]
  · exact jsPadStart_length_of_le m 2 '0' hm
  · exact jsPadStart_length_of_le d 2 '0' hd
  · simp [xmlPubDateStr, renderDateParts, joinWith, hy4]
  · simp [xmlPubDateStr, renderDateParts, joinWith, hy4, hm2]
  · simp [xmlPubDateStr, renderDateParts, joinWith, hy4, hm2, hd2]

/-- C1, witness for the amended theorem at year 2020, month 5, day 7. -/
theorem c1_date_shape_witness :
    apiDateStr (some "2020") none none = "2020" ∧
    apiDateStr (some "2020") (some "5") none = "2020" ++ "-" ++ jsPadStart "5" 2 '0' ∧
    apiDateStr (some "2020") (some "5") (some "7") =
      "2020" ++ "-" ++ (jsPadStart "5" 2 '0' ++ "-" ++ jsPadStart "7" 2 '0') ∧
    (jsPadStart "5" 2 '0').length = 2 ∧
    (jsPadStart "7" 2 '0').length = 2 ∧
    xmlPubDateStr (some "2020") none none = jsPadStart "2020" 4 '0' ∧
    xmlPubDateStr (some "2020") (some "5") none =
      jsPadStart "2020" 4 '0' ++ "-" ++ jsPadStart "5" 2 '0' ∧
    xmlPubDateStr (some "2020") (some "5") (some "7") =
      jsPadStart "2020" 4 '0' ++ "-" ++ (jsPadStart "5" 2 '0' ++ "-" ++ jsPadStart "7" 2 '0') :=
  c1_date_shape "2020" "5" "7" (by decide) (by decide) (by decide)

theorem listIsPre_append (p l m : List Char) (h : listIsPre p l = true) :
    listIsPre p (l ++ m) = true := by
  induction p generalizing l with
  | nil => rfl
  | cons a as ih =>
    cases l with
    | nil => simp [listIsPre] at h
    | cons b bs =>
      simp [listIsPre] at h ⊢
      exact ⟨h.1, ih bs h.2⟩

theorem jsStartsWith_append (x v p : String) (h : jsStartsWith x p = true) :
    jsStartsWith (x ++ v) p = true := by
  unfold jsStartsWith at *
  rw [String.data_append]
  exact listIsPre_append _ _ _ h

/-- The `find` of revision A, specialised: when some identifier satisfies
the predicate, `find?` returns a satisfying member. -/
theorem find_externalId (ids : List ExternalId) (p : ExternalId → Bool)
    (h : ∃ i ∈ ids, p i = true) :
    ∃ d, ids.find? p = some d ∧ d ∈ ids ∧ p d = true := by
  have hs : (ids.find? p).isSome := by
    rw [List.find?_isSome]
    exact h
  rcases Option.isSome_iff_exists.mp hs with ⟨d, hd⟩
  exact ⟨d, hd, List.mem_of_find?_eq_some hd, List.find?_some hd⟩

/-- Revision B's loop returns the first DOI-typed identifier with a
truthy value whenever one is present, for every accumulator. -/
theorem pickUrlApiGo_doi (ids : List ExternalId)
    (h : ∃ i ∈ ids, i.idType = "DOI" ∧ i.value ≠ "") :
    ∀ acc, ∃ i ∈ ids, i.idType = "DOI" ∧ i.value ≠ "" ∧
      pickUrlApiGo ids acc = "https://doi.org/" ++ i.value := by
  induction ids with
  | nil => simp at h
  | cons i rest ih =>
    intro acc
    by_cases h1 : i.idType = "DOI" ∧ i.value ≠ ""
    · exact ⟨i, List.mem_cons_self i rest, h1.1, h1.2, by rw [pickUrlApiGo, if_pos h1]⟩
    · have hrest : ∃ j ∈ rest, j.idType = "DOI" ∧ j.value ≠ "" := by
        rcases h with ⟨j, hj, hjp⟩
        rcases List.mem_cons.mp hj with rfl | hjr
        · exact absurd hjp h1
        · exact ⟨j, hjr, hjp⟩
      by_cases h2 : i.idType = "URL" ∧ i.value ≠ ""
      · rcases ih hrest (withHttp i.value) with ⟨j, hj, hjt, hjv, hje⟩
        exact ⟨j, List.mem_cons_of_mem i hj, hjt, hjv, by
          rw [pickUrlApiGo, if_neg h1, if_pos h2]; exact hje⟩
      · rcases ih hrest acc with ⟨j, hj, hjt, hjv, hje⟩
        exact ⟨j, List.mem_cons_of_mem i hj, hjt, hjv, by
          rw [pickUrlApiGo, if_neg h1, if_neg h2]; exact hje⟩

/-- Revision C's loop returns the first lowercased-DOI identifier with a
truthy value whenever one is present, for every accumulator. -/
theorem pickUrlCleanGo_doi (ids : List ExternalId)
    (h : ∃ i ∈ ids, jsToLower i.idType = "doi" ∧ i.value ≠ "") :
    ∀ acc, ∃ i ∈ ids, jsToLower i.idType = "doi" ∧ i.value ≠ "" ∧
      pickUrlCleanGo ids acc = "https://doi.org/" ++ i.value := by
  induction ids with
  | nil => simp at h
  | cons i rest ih =>
    intro acc
    by_cases hv : i.value = ""
    · have hrest : ∃ j ∈ rest, jsToLower j.idType = "doi" ∧ j.value ≠ "" := by
        rcases h with ⟨j, hj, hjp⟩
        rcases List.mem_cons.mp hj with rfl | hjr
        · exact absurd hv hjp.2
        · exact ⟨j, hjr, hjp⟩
      rcases ih hrest acc with ⟨j, hj, hjt, hjv, hje⟩
      exact ⟨j, List.mem_cons_of_mem i hj, hjt, hjv, by
        rw [pickUrlCleanGo, if_pos hv]; exact hje⟩
    · by_cases ht : jsToLower i.idType = "doi"
      · exact ⟨i, List.mem_cons_self i rest, ht, hv, by
          rw [pickUrlCleanGo, if_neg hv, if_pos ht]⟩
      · have hrest : ∃ j ∈ rest, jsToLower j.idType = "doi" ∧ j.value ≠ "" := by
          rcases h with ⟨j, hj, hjp⟩
          rcases List.mem_cons.mp hj with rfl | hjr
          · exact absurd hjp.1 ht
          · exact ⟨j, hjr, hjp⟩
        by_cases hu : jsToLower i.idType = "url"
        · rcases ih hrest (withHttp i.value) with ⟨j, hj, hjt, hjv, hje⟩
          exact ⟨j, List.mem_cons_of_mem i hj, hjt, hjv, by
            rw [pickUrlCleanGo, if_neg hv, if_neg ht, if_pos hu]; exact hje⟩
        · rcases ih hrest acc with ⟨j, hj, hjt, hjv, hje⟩
          exact ⟨j, List.mem_cons_of_mem i hj, hjt, hjv, by
            rw [pickUrlCleanGo, if_neg hv, if_neg ht, if_neg hu]; exact hje⟩

/-- C2, confirmed: in each revision, when the external identifier list
contains a DOI-typed identifier (with a truthy value; in revision A all
values are assumed truthy since its `find` picks the first `doi`-typed
entry before testing the value) and a URL-typed identifier, the rendered
link is the DOI resolver URL built from a DOI-typed identifier's value,
not the raw URL — regardless of the order of entries. Type tags follow
each revision's data source: lowercase for revisions A and C, uppercase
for revision B. -/
theorem c2_doi_over_url :
    (∀ ids : List ExternalId, (∀ i ∈ ids, i.value ≠ "") →
      (∃ i ∈ ids, i.idType = "doi") → (∃ i ∈ ids, jsToLower i.idType = "url") →
      ∃ i ∈ ids, i.idType = "doi" ∧ pickUrlXml ids = "https://doi.org/" ++ i.value) ∧
    (∀ ids : List ExternalId,
      (∃ i ∈ ids, i.idType = "DOI" ∧ i.value ≠ "") → (∃ i ∈ ids, i.idType = "URL") →
      ∃ i ∈ ids, i.idType = "DOI" ∧ pickUrlApi ids = "https://doi.org/" ++ i.value) ∧
    (∀ ids : List ExternalId,
      (∃ i ∈ ids, jsToLower i.idType = "doi" ∧ i.value ≠ "") →
      (∃ i ∈ ids, jsToLower i.idType = "url") →
      ∃ i ∈ ids, jsToLower i.idType = "doi" ∧
        pickUrlClean ids = "https://doi.org/" ++ i.value) := by
  refine ⟨?_, ?_, ?_⟩
  · intro ids hall hdoi _
    have hfind : ∃ i ∈ ids, (fun i => i.idType == "doi") i = true := by
      rcases hdoi with ⟨i, hi, ht⟩
      exact ⟨i, hi, by simp [ht]⟩
    rcases find_externalId ids _ hfind with ⟨d, hd, hdm, hdt⟩
    have hdt' : d.idType = "doi" := by simpa using hdt
    have hdv : d.value ≠ "" := hall d hdm
    exact ⟨d, hdm, hdt', by rw [pickUrlXml, hd]; simp [hdv]⟩
  · intro ids hdoi _
    rcases pickUrlApiGo_doi ids hdoi "" with ⟨i, hi, ht, _, he⟩
    exact ⟨i, hi, ht, he⟩
  · intro ids hdoi _
    rcases pickUrlCleanGo_doi ids hdoi "" with ⟨i, hi, ht, _, he⟩
    exact ⟨i, hi, ht, he⟩

/-- C2, witness: in each revision a list with the URL entry first and the
DOI entry second still renders the DOI resolver link. -/
theorem c2_doi_over_url_witness :
    (∃ i ∈ [ExternalId.mk "url" "example.org/x", ExternalId.mk "doi" "10.1234/abc"],
      i.idType = "doi" ∧
        pickUrlXml [ExternalId.mk "url" "example.org/x", ExternalId.mk "doi" "10.1234/abc"] =
          "https://doi.org/" ++ i.value) ∧
    (∃ i ∈ [ExternalId.mk "URL" "example.org/x", ExternalId.mk "DOI" "10.1234/abc"],
      i.idType = "DOI" ∧
        pickUrlApi [ExternalId.mk "URL" "example.org/x", ExternalId.mk "DOI" "10.1234/abc"] =
          "https://doi.org/" ++ i.value) ∧
    (∃ i ∈ [ExternalId.mk "URL" "example.org/x", ExternalId.mk "DOI" "10.1234/abc"],
      jsToLower i.idType = "doi" ∧
        pickUrlClean [ExternalId.mk "URL" "example.org/x", ExternalId.mk "DOI" "10.1234/abc"] =
          "https://doi.org/" ++ i.value) :=
  ⟨c2_doi_over_url.1 _ (by decide) (by decide) (by decide),
   c2_doi_over_url.2.1 _ (by decide) (by decide),
   c2_doi_over_url.2.2 _ (by decide) (by decide)⟩

theorem jsStartsWith_withHttp (v : String) : jsStartsWith (withHttp v) "http" = true := by
  rw [withHttp]
  by_cases h : jsStartsWith v "http" = true
  · rw [if_pos h]; exact h
  · have h' : jsStartsWith v "http" = false := by
      cases hc : jsStartsWith v "http"
      · rfl
      · exact absurd hc h
    rw [h']
    simp only [Bool.false_eq_true, if_false]
    exact jsStartsWith_append "https://" v "http" (by decide)

theorem jsStartsWith_doi (v : String) :
    jsStartsWith ("https://doi.org/" ++ v) "http" = true :=
  jsStartsWith_append "https://doi.org/" v "http" (by decide)

theorem pickUrlXmlFallback_http (ids : List ExternalId) :
    pickUrlXmlFallback ids = "" ∨
      jsStartsWith (pickUrlXmlFallback ids) "http" = true := by
  rw [pickUrlXmlFallback]
  cases hfind : ids.find? (fun i => jsToLower i.idType == "url") with
  | none => exact Or.inl rfl
  | some u =>
    by_cases hv : u.value = ""
    · simp [hv]
    · simp only [hv, if_false, if_neg hv]
      exact Or.inr (jsStartsWith_withHttp u.value)

theorem pickUrlApiGo_http (ids : List ExternalId) :
    ∀ acc, (acc = "" ∨ jsStartsWith acc "http" = true) →
      (pickUrlApiGo ids acc = "" ∨ jsStartsWith (pickUrlApiGo ids acc) "http" = true) := by
  induction ids with
  | nil => intro acc h; rw [pickUrlApiGo]; exact h
  | cons i rest ih =>
    intro acc h
    rw [pickUrlApiGo]
    by_cases h1 : i.idType = "DOI" ∧ i.value ≠ ""
    · rw [if_pos h1]; exact Or.inr (jsStartsWith_doi i.value)
    · rw [if_neg h1]
      by_cases h2 : i.idType = "URL" ∧ i.value ≠ ""
      · rw [if_pos h2]; exact ih _ (Or.inr (jsStartsWith_withHttp i.value))
      · rw [if_neg h2]; exact ih _ h

theorem pickUrlCleanGo_http (ids : List ExternalId) :
    ∀ acc, (acc = "" ∨ jsStartsWith acc "http" = true) →
      (pickUrlCleanGo ids acc = "" ∨ jsStartsWith (pickUrlCleanGo ids acc) "http" = true) := by
  induction ids with
  | nil => intro acc h; rw [pickUrlCleanGo]; exact h
  | cons i rest ih =>
    intro acc h
    rw [pickUrlCleanGo]
    by_cases hv : i.value = ""
    · rw [if_pos hv]; exact ih _ h
    · rw [if_neg hv]
      by_cases ht : jsToLower i.idType = "doi"
      · rw [if_pos ht]; exact Or.inr (jsStartsWith_doi i.value)
      · rw [if_neg ht]
        by_cases hu : jsToLower i.idType = "url"
        · rw [if_pos hu]; exact ih _ (Or.inr (jsStartsWith_withHttp i.value))
        · rw [if_neg hu]; exact ih _ h

/-- C9, confirmed: in every revision's external-identifier link choice, a
non-empty chosen link starts with `"http"`; the DOI branch produces the
`https://doi.org/<value>` resolver form at the identifier it selects; and
a URL value that does not itself start with `"http"` gets `"https://"`
prepended. -/
theorem c9_link_starts_http :
    (∀ ids : List ExternalId,
      pickUrlXml ids ≠ "" → jsStartsWith (pickUrlXml ids) "http" = true) ∧
    (∀ ids : List ExternalId,
      pickUrlApi ids ≠ "" → jsStartsWith (pickUrlApi ids) "http" = true) ∧
    (∀ ids : List ExternalId,
      pickUrlClean ids ≠ "" → jsStartsWith (pickUrlClean ids) "http" = true) ∧
    (∀ (i : ExternalId) (rest : List ExternalId) (acc : String),
      i.idType = "DOI" → i.value ≠ "" →
        pickUrlApiGo (i :: rest) acc = "https://doi.org/" ++ i.value) ∧
    (∀ (i : ExternalId) (rest : List ExternalId) (acc : String),
      jsToLower i.idType = "doi" → i.value ≠ "" →
        pickUrlCleanGo (i :: rest) acc = "https://doi.org/" ++ i.value) ∧
    (∀ v : String, jsStartsWith v "http" = false → withHttp v = "https://" ++ v) := by
  refine ⟨?_, ?_, ?_, ?_, ?_, ?_⟩
  · intro ids hne
    have key : pickUrlXml ids = "" ∨ jsStartsWith (pickUrlXml ids) "http" = true := by
      cases hfind : ids.find? (fun i => i.idType == "doi") with
      | none =>
        have hx : pickUrlXml ids = pickUrlXmlFallback ids := by rw [pickUrlXml, hfind]
        rw [hx]; exact pickUrlXmlFallback_http ids
      | some d =>
        have hx : pickUrlXml ids =
            if d.value = "" then pickUrlXmlFallback ids else "https://doi.org/" ++ d.value := by
          rw [pickUrlXml, hfind]
        rw [hx]
        by_cases hv : d.value = ""
        · rw [if_pos hv]; exact pickUrlXmlFallback_http ids
        · rw [if_neg hv]; exact Or.inr (jsStartsWith_doi d.value)
    exact key.resolve_left hne
  · intro ids hne
    exact ((pickUrlApiGo_http ids "" (Or.inl rfl)).resolve_left hne)
  · intro ids hne
    exact ((pickUrlCleanGo_http ids "" (Or.inl rfl)).resolve_left hne)
  · intro i rest acc ht hv
    rw [pickUrlApiGo, if_pos ⟨ht, hv⟩]
  · intro i rest acc ht hv
    rw [pickUrlCleanGo, if_neg hv, if_pos ht]
  · intro v h
    rw [withHttp, h]
    simp

/-- C9, witness: concrete instances of every conjunct. -/
theorem c9_link_starts_http_witness :
    jsStartsWith (pickUrlXml [ExternalId.mk "url" "example.org"]) "http" = true ∧
    jsStartsWith (pickUrlApi [ExternalId.mk "URL" "example.org"]) "http" = true ∧
    jsStartsWith (pickUrlClean [ExternalId.mk "url" "example.org"]) "http" = true ∧
    pickUrlApiGo [ExternalId.mk "DOI" "10.1/x"] "" = "https://doi.org/" ++ "10.1/x" ∧
    pickUrlCleanGo [ExternalId.mk "doi" "10.1/x"] "" = "https://doi.org/" ++ "10.1/x" ∧
    withHttp "example.org" = "https://" ++ "example.org" :=
  ⟨c9_link_starts_http.1 _ (by decide),
   c9_link_starts_http.2.1 _ (by decide),
   c9_link_starts_http.2.2.1 _ (by decide),
   c9_link_starts_http.2.2.2.1 (ExternalId.mk "DOI" "10.1/x") [] "" rfl (by decide),
   c9_link_starts_http.2.2.2.2.1 (ExternalId.mk "doi" "10.1/x") [] "" (by decide) (by decide),
   c9_link_starts_http.2.2.2.2.2 "example.org" (by decide)⟩

theorem sortRepos_sorted (repos : List Repo) :
    List.Pairwise (fun a b : Repo => b.updated_at ≤ a.updated_at) (sortRepos repos) := by
  have h := @List.sorted_mergeSort Repo (fun a b => decide (b.updated_at ≤ a.updated_at))
    (by intro a b c hab hbc; simp only [decide_eq_true_eq] at *; omega)
    (by intro a b; simp only [Bool.or_eq_true, decide_eq_true_eq]; omega)
    repos
  rw [sortRepos]
  exact h.imp (fun hab => by simpa using hab)

/-- C3, confirmed: a well-formed repository array (any list of parsed
entries) renders as one card per entry, sorted so that the `updated_at`
timestamps along the rendered card sequence never increase. -/
theorem c3_cards_nonincreasing (status : Nat) (repos : List Repo) :
    fetchRepos (.response status (.array repos)) =
      .cards ((sortRepos repos).map createRepoCard) ∧
    List.Pairwise (fun a b : RepoCard => b.updated ≤ a.updated)
      ((sortRepos repos).map createRepoCard) := by
  refine ⟨rfl, ?_⟩
  rw [List.pairwise_map]
  exact (sortRepos_sorted repos).imp (fun hab => hab)

/-- C8, confirmed: a repository entry with an absent (`null`/missing)
description renders the literal `No description provided`, and an absent
language renders `Not specified`; neither fallback is the empty string. -/
theorem c8_null_fallback_literals (repo : Repo)
    (hd : repo.description = none) (hl : repo.language = none) :
    (createRepoCard repo).description = "No description provided" ∧
    (createRepoCard repo).language = "Not specified" ∧
    (createRepoCard repo).description ≠ "" ∧
    (createRepoCard repo).language ≠ "" := by
  simp [createRepoCard, jsOr, hd, hl]

/-- C8, witness at a concrete repository entry with both fields absent. -/
theorem c8_null_fallback_literals_witness :
    (createRepoCard (Repo.mk "r" none 1 2 3 none "https://example.org")).description =
      "No description provided" ∧
    (createRepoCard (Repo.mk "r" none 1 2 3 none "https://example.org")).language =
      "Not specified" ∧
    (createRepoCard (Repo.mk "r" none 1 2 3 none "https://example.org")).description ≠ "" ∧
    (createRepoCard (Repo.mk "r" none 1 2 3 none "https://example.org")).language ≠ "" :=
  c8_null_fallback_literals (Repo.mk "r" none 1 2 3 none "https://example.org") rfl rfl

/-- C10, confirmed: a present-but-empty description or language field is
falsy for `||`, so it renders the same fallback literals as an absent
field — the whole card is equal to the card of the entry with the field
removed, making the two cases indistinguishable in the output. -/
theorem c10_empty_string_fallback (repo : Repo)
    (hd : repo.description = some "") (hl : repo.language = some "") :
    createRepoCard repo =
      createRepoCard { repo with description := none, language := none } ∧
    (createRepoCard repo).description = "No description provided" ∧
    (createRepoCard repo).language = "Not specified" := by
  refine ⟨?_, ?_, ?_⟩ <;> simp [createRepoCard, jsOr, hd, hl]

/-- C10, witness at a concrete repository entry with both fields empty. -/
theorem c10_empty_string_fallback_witness :
    createRepoCard (Repo.mk "r" (some "") 1 2 3 (some "") "https://example.org") =
      createRepoCard
        { Repo.mk "r" (some "") 1 2 3 (some "") "https://example.org" with
            description := none, language := none } ∧
    (createRepoCard (Repo.mk "r" (some "") 1 2 3 (some "") "https://example.org")).description =
      "No description provided" ∧
    (createRepoCard (Repo.mk "r" (some "") 1 2 3 (some "") "https://example.org")).language =
      "Not specified" :=
  c10_empty_string_fallback (Repo.mk "r" (some "") 1 2 3 (some "") "https://example.org") rfl rfl

/-- C4, counterexample. The repository loader never reads the HTTP
status: a 500 response whose body happens to be a JSON array of one
repository object is processed as a success and renders one card, not
the static error message. -/
theorem c4_counterexample :
    statusOk 500 = false ∧
    fetchRepos (.response 500 (.array [Repo.mk "r" none 1 2 3 none "u"])) =
      .cards [createRepoCard (Repo.mk "r" none 1 2 3 none "u")] ∧
    ReposRender.cards [createRepoCard (Repo.mk "r" none 1 2 3 none "u")] ≠
      .message reposErrorHtml := by
  refine ⟨by decide, ?_, by decide⟩
  simp [fetchRepos, sortRepos]

/-- C4, amended: the loader renders exactly the single static error
message (the whole container contents, so zero cards) for every response
whose body is not a JSON array — which covers every failure the endpoint
actually produces on a non-2xx status, since its error bodies are JSON
objects — and for network errors; the HTTP status itself is never
examined, so a non-2xx response whose body is a JSON array is processed
as a success. -/
theorem c4_non2xx_error (status : Nat) (body : ReposBody)
    (hb : ∀ repos : List Repo, body ≠ .array repos) :
    fetchRepos (.response status body) = .message reposErrorHtml := by
  cases body with
  | malformed => rfl
  | notArray => rfl
  | array repos => exact absurd rfl (hb repos)

/-- C4, witness: a 500 response with a non-array JSON body renders the
static error message. -/
theorem c4_non2xx_error_witness :
    fetchRepos (.response 500 .notArray) = .message reposErrorHtml :=
  c4_non2xx_error 500 .notArray (fun _ h => ReposBody.noConfusion h)

/-- The failures claim C7 lists for revision A's publication loader:
network error, non-2xx status, parse failure. -/
def xmlFailure : XmlFetchOutcome → Prop
  | .networkError _ => True
  | .response status _ body => statusOk status = false ∨ body = .parseFailure

/-- C7, counterexample. The claim covers a non-2xx status of the
repository loader among the failures converted to an inline message, but
that loader never observes the status: a 404 response with a JSON-array
body renders cards instead of the error message. -/
theorem c7_counterexample :
    statusOk 404 = false ∧
    fetchRepos (.response 404 (.array [Repo.mk "s" none 0 0 7 none "u2"])) =
      .cards [createRepoCard (Repo.mk "s" none 0 0 7 none "u2")] ∧
    ReposRender.cards [createRepoCard (Repo.mk "s" none 0 0 7 none "u2")] ≠
      .message reposErrorHtml := by
  refine ⟨by decide, ?_, by decide⟩
  simp [fetchRepos, sortRepos]

/-- C7, amended: both loaders are total functions of their fetch outcome
into a single final container value — an inline message or a complete
card list, never a partial mix, and no exception escapes. Every failure
each loader detects is converted to its inline message: for the
repository loader these are network errors and non-array (or unparsable)
bodies, the HTTP status never being examined; for revision A's
publication loader they are network errors, non-2xx statuses and XML
parse failures. -/
theorem c7_failures_contained :
    (∀ o : ReposFetchOutcome,
      fetchRepos o = .message reposErrorHtml ∨
        ∃ repos, fetchRepos o = .cards ((sortRepos repos).map createRepoCard)) ∧
    (fetchRepos .networkError = .message reposErrorHtml) ∧
    (∀ (status : Nat) (body : ReposBody), (∀ repos : List Repo, body ≠ .array repos) →
      fetchRepos (.response status body) = .message reposErrorHtml) ∧
    (∀ o : XmlFetchOutcome, xmlFailure o → ∃ msg, fetchOrcidWorksXml o = .message msg) ∧
    (∀ o : XmlFetchOutcome,
      (∃ msg, fetchOrcidWorksXml o = .message msg) ∨
        ∃ ws, ws ≠ [] ∧ fetchOrcidWorksXml o = .papers (ws.map xmlWorkCard)) := by
  refine ⟨?_, rfl, ?_, ?_, ?_⟩
  · intro o
    match o with
    | .networkError => exact Or.inl rfl
    | .response status .malformed => exact Or.inl rfl
    | .response status .notArray => exact Or.inl rfl
    | .response status (.array repos) => exact Or.inr ⟨repos, rfl⟩
  · intro status body hb
    cases body with
    | malformed => rfl
    | notArray => rfl
    | array repos => exact absurd rfl (hb repos)
  · intro o hfail
    match o, hfail with
    | .networkError msg, _ => exact ⟨xmlErrorHtml msg, rfl⟩
    | .response status statusText body, hfail =>
      cases hst : statusOk status with
      | false => exact ⟨xmlErrorHtml (xmlStatusMsg status statusText), by
          simp [fetchOrcidWorksXml, hst]⟩
      | true =>
        have hbody : body = .parseFailure := by
          rcases hfail with hf | hf
          · rw [hst] at hf; exact absurd hf (by simp)
          · exact hf
        subst hbody
        exact ⟨xmlErrorHtml xmlParseFailureMsg, by simp [fetchOrcidWorksXml, hst]⟩
  · intro o
    match o with
    | .networkError msg => exact Or.inl ⟨xmlErrorHtml msg, rfl⟩
    | .response status statusText body =>
      cases hst : statusOk status with
      | false => exact Or.inl ⟨xmlErrorHtml (xmlStatusMsg status statusText), by
          simp [fetchOrcidWorksXml, hst]⟩
      | true =>
        cases body with
        | parseFailure => exact Or.inl ⟨xmlErrorHtml xmlParseFailureMsg, by
            simp [fetchOrcidWorksXml, hst]⟩
        | works ws =>
          cases hws : ws with
          | nil => exact Or.inl ⟨xmlErrorHtml xmlNoWorksMsg, by
              simp [fetchOrcidWorksXml, hst]⟩
          | cons w rest =>
            refine Or.inr ⟨w :: rest, by simp, ?_⟩
            simp [fetchOrcidWorksXml, hst, displayPapersFromXmlData]

/-- C7, witness: a non-array 503 repository body renders the static
message, and an empty XML works list (a 500 status outcome) renders an
inline error message. -/
theorem c7_failures_contained_witness :
    fetchRepos (.response 503 .malformed) = .message reposErrorHtml ∧
    (∃ msg, fetchOrcidWorksXml (.response 500 "Server Error" (.works [])) = .message msg) :=
  ⟨c7_failures_contained.2.2.1 503 .malformed (fun _ h => ReposBody.noConfusion h),
   c7_failures_contained.2.2.2.1 (.response 500 "Server Error" (.works []))
     (Or.inl (by decide))⟩

/-- A JSON-LD work object with one title and one URL, as
`extractWorksFromHtmlJsonLd` could return it. -/
def sampleLdWork : LdWork :=
  { name := some "Sample Work"
    headline := none
    ldTitle := none
    author := .absent
    datePublished := none
    dateCreated := none
    publicationDate := none
    isPartOf := none
    publisher := none
    url := some "https://example.org/w"
    atId := none }

/-- C5, counterexample. In revision B an empty successfully parsed API
result does not render a no-publications message at all: it triggers the
HTML fallback, and when that fallback finds a JSON-LD work the loader
renders publication cards. -/
theorem c5_counterexample :
    (fetchOrcidWorksApiHtml ⟨.works [], .page (some [sampleLdWork])⟩).2 =
      .papers [ldWorkCard sampleLdWork] ∧
    PapersRender.papers [ldWorkCard sampleLdWork] ≠
      .message "<p>No publications found in ORCID profile (API).</p>" := by
  constructor
  · simp [fetchOrcidWorksApiHtml, htmlAttemptRender, displayPapersFromParsedData]
  · simp

/-- Every inline error message of revision C starts with the characters
of its error markup prefix, whatever the thrown message was. -/
theorem cleanErrorHtml_starts (msg : String) :
    jsStartsWith (cleanErrorHtml msg) "<p c" = true := by
  rw [cleanErrorHtml]
  exact jsStartsWith_append _ _ _ (jsStartsWith_append _ _ _ (by decide))

/-- C5, amended: revision C (the API-only fetcher) renders the literal
`<p>No publications found.</p>` for an empty successfully parsed result,
and that string differs from every inline error markup (network error,
non-2xx, parse rejection), which always carries the
`class="error"` prefix. Revision A funnels the empty result into its own
(distinct) thrown message, and revision B instead issues the HTML
fallback request, so only revision C renders a dedicated no-publications
state. -/
theorem c5_empty_result_message :
    (∀ (status : Nat) (statusText : String), statusOk status = true →
      fetchOrcidWorksClean (.response status statusText (.works [])) =
        .message cleanNoPubsHtml) ∧
    (∀ msg : String, cleanNoPubsHtml ≠ cleanErrorHtml msg) ∧
    (∀ msg : String,
      fetchOrcidWorksClean (.networkError msg) = .message (cleanErrorHtml msg)) ∧
    (∀ html : HtmlAttempt,
      (fetchOrcidWorksApiHtml ⟨.works [], html⟩).1 =
        [OrcidRequest.apiActivities, OrcidRequest.profileHtml]) := by
  refine ⟨?_, ?_, ?_, ?_⟩
  · intro status statusText h
    simp [fetchOrcidWorksClean, h]
  · intro msg h
    have hs := cleanErrorHtml_starts msg
    rw [← h] at hs
    exact absurd hs (by decide)
  · intro msg; rfl
  · intro html; rfl

/-- C5, witness: a 200 response with zero groups renders the
no-publications message, which differs from the inline form of the
generic network failure message. -/
theorem c5_empty_result_message_witness :
    fetchOrcidWorksClean (.response 200 "OK" (.works [])) = .message cleanNoPubsHtml ∧
    cleanNoPubsHtml ≠ cleanErrorHtml "Failed to fetch" ∧
    fetchOrcidWorksClean (.networkError "Failed to fetch") =
      .message (cleanErrorHtml "Failed to fetch") ∧
    (fetchOrcidWorksApiHtml ⟨.works [], .fetchError "Failed to fetch"⟩).1 =
      [OrcidRequest.apiActivities, OrcidRequest.profileHtml] :=
  ⟨c5_empty_result_message.1 200 "OK" (by decide),
   c5_empty_result_message.2.1 "Failed to fetch",
   c5_empty_result_message.2.2.1 "Failed to fetch",
   c5_empty_result_message.2.2.2 (.fetchError "Failed to fetch")⟩

/-- C6, confirmed: revision B's loader issues its requests in the fixed
priority order (the API request always first), issues at most two, stops
and renders after the first request whenever that attempt yields at
least one parsed work group, and issues the fallback profile-HTML
request exactly when the API attempt did not yield a record (failed or
returned zero groups) — the sequential `await`s make that observation
precede the second request. -/
theorem c6_two_phase_fallback (env : OrcidEnv) :
    ((fetchOrcidWorksApiHtml env).1 = [OrcidRequest.apiActivities] ∨
      (fetchOrcidWorksApiHtml env).1 =
        [OrcidRequest.apiActivities, OrcidRequest.profileHtml]) ∧
    (fetchOrcidWorksApiHtml env).1.length ≤ 2 ∧
    (fetchOrcidWorksApiHtml env).1.head? = some OrcidRequest.apiActivities ∧
    (∀ (g : WorkGroup) (gs : List WorkGroup), env.api = .works (g :: gs) →
      fetchOrcidWorksApiHtml env =
        ([OrcidRequest.apiActivities], displayPapers (g :: gs))) ∧
    ((fetchOrcidWorksApiHtml env).1 =
        [OrcidRequest.apiActivities, OrcidRequest.profileHtml] →
      apiYields env.api = false) ∧
    (apiYields env.api = false →
      (fetchOrcidWorksApiHtml env).2 = htmlAttemptRender env.html) := by
  obtain ⟨api, html⟩ := env
  cases api with
  | fetchError msg =>
    exact ⟨Or.inr rfl, by simp [fetchOrcidWorksApiHtml], rfl,
      fun g gs h => ApiAttempt.noConfusion h, fun _ => rfl, fun _ => rfl⟩
  | notOk status statusText =>
    exact ⟨Or.inr rfl, by simp [fetchOrcidWorksApiHtml], rfl,
      fun g gs h => ApiAttempt.noConfusion h, fun _ => rfl, fun _ => rfl⟩
  | works groups =>
    cases groups with
    | nil =>
      refine ⟨Or.inr rfl, by simp [fetchOrcidWorksApiHtml], rfl, ?_, fun _ => rfl, fun _ => rfl⟩
      intro g gs h
      simp at h
    | cons g gs =>
      refine ⟨Or.inl rfl, by simp [fetchOrcidWorksApiHtml], rfl, ?_, ?_, ?_⟩
      · intro g' gs' h
        injection h with h1
        rw [← h1]
        rfl
      · intro h
        simp [fetchOrcidWorksApiHtml] at h
      · intro h
        simp [apiYields] at h

/-- C6, witness: with a failed API attempt the trace is the two requests
in order and the render comes from the fallback; with a one-group API
result the trace is the single API request. -/
theorem c6_two_phase_fallback_witness :
    ((fetchOrcidWorksApiHtml ⟨.works [], .fetchError "boom"⟩).1 =
        [OrcidRequest.apiActivities] ∨
      (fetchOrcidWorksApiHtml ⟨.works [], .fetchError "boom"⟩).1 =
        [OrcidRequest.apiActivities, OrcidRequest.profileHtml]) ∧
    apiYields (ApiAttempt.works []) = false ∧
    (fetchOrcidWorksApiHtml ⟨.works [], .fetchError "boom"⟩).2 =
      htmlAttemptRender (.fetchError "boom") ∧
    fetchOrcidWorksApiHtml ⟨.works [WorkGroup.mk []], .fetchError "boom"⟩ =
      ([OrcidRequest.apiActivities], displayPapers [WorkGroup.mk []]) :=
  ⟨(c6_two_phase_fallback ⟨.works [], .fetchError "boom"⟩).1,
   by decide,
   (c6_two_phase_fallback ⟨.works [], .fetchError "boom"⟩).2.2.2.2.2 (by decide),
   (c6_two_phase_fallback ⟨.works [WorkGroup.mk []], .fetchError "boom"⟩).2.2.2.1
     (WorkGroup.mk []) [] rfl⟩
